import Mathlib

/-!
Shallow embedding of the callback-delivery subsystem of the Consuma
repository (src/app/callback_worker.py, src/app/config.py, src/app/work.py,
src/app/models.py), together with theorems checking the natural-language
specification against it.

External effects are modelled as explicit parameters:
* DNS resolution (socket.gethostbyname + ipaddress classification) is a
  function String → Option IPInfo, none being a resolution failure;
* URL parsing (urllib.parse.urlparse) is a function String → Option ParsedUrl,
  none being a parse exception;
* the outcome of each outbound HTTP POST is a function Nat → AttemptOutcome
  indexed by the attempt number;
* random.random() is a function Nat → ℚ giving the draw used for the jitter
  of the sleep that follows the given attempt;
* the persistence layer (database.get_request / save_request) keeps, for the
  single request id a delivery works on, an Option RequestRecord.

Every run of the dispatcher or worker produces, besides the final stored
record, a trace of events: outbound posts, sleeps, and record saves.
-/

namespace Consuma

/-- ASCII lowercasing of a string, modelling what Python str.lower() does on
the hostname strings involved here. -/
def strLower (s : String) : String := ⟨s.data.map Char.toLower⟩

/-- The fields of app.config.Settings used by the callback subsystem, with
numeric delays as rationals. -/
structure Settings where
  async_worker_count : Nat
  async_queue_max_size : Nat
  callback_max_retries : Nat
  callback_retry_base_delay : ℚ
  callback_retry_max_delay : ℚ
  callback_block_private_ips : Bool
  callback_allowed_schemes : List String
deriving Repr

/-- The default Settings values of src/app/config.py. -/
def defaultSettings : Settings where
  async_worker_count := 10
  async_queue_max_size := 10000
  callback_max_retries := 3
  callback_retry_base_delay := 1
  callback_retry_max_delay := 30
  callback_block_private_ips := true
  callback_allowed_schemes := ["http", "https"]

/-- Classification flags of a resolved IP address, as computed by the Python
ipaddress module on the result of socket.gethostbyname. -/
structure IPInfo where
  is_private : Bool
  is_loopback : Bool
  is_link_local : Bool
  is_reserved : Bool
  is_multicast : Bool
deriving DecidableEq, Repr

/-- config.is_private_ip: resolve the hostname and block private, loopback,
link-local, reserved and multicast ranges; a resolution failure (gaierror or
ValueError) is blocked as well. -/
def is_private_ip (resolve : String → Option IPInfo) (hostname : String) : Bool :=
  match resolve hostname with
  | none => true
  | some ip =>
      ip.is_private || ip.is_loopback || ip.is_link_local ||
      ip.is_reserved || ip.is_multicast

/-- Result of urllib.parse.urlparse as used by the validator: the scheme and
the (already present or absent) hostname. -/
structure ParsedUrl where
  scheme : String
  hostname : Option String
deriving DecidableEq, Repr

/-- The four hostname literals blocked explicitly by the validator. -/
def localhostVariants : List String := ["localhost", "127.0.0.1", "::1", "0.0.0.0"]

/-- CallbackWorkerPool._is_safe_callback_url: reject schemes outside the
allow-list; when private-IP blocking is enabled, reject lowercased localhost
variants and hostnames classified private by is_private_ip; any parse
exception yields false. -/
def _is_safe_callback_url (stg : Settings) (parse : String → Option ParsedUrl)
    (resolve : String → Option IPInfo) (url : String) : Bool :=
  match parse url with
  | none => false
  | some parsed =>
    if parsed.scheme ∈ stg.callback_allowed_schemes then
      if stg.callback_block_private_ips then
        let hostname := parsed.hostname.getD ""
        if strLower hostname ∈ localhostVariants then false
        else if is_private_ip resolve hostname then false
        else true
      else true
    else false

/-- app.models.RequestStatus. -/
inductive RequestStatus where
  | pending
  | processing
  | completed
  | callback_pending
  | callback_success
  | callback_failed
deriving DecidableEq, Repr

/-- app.models.RequestMode. -/
inductive RequestMode where
  | sync
  | async
deriving DecidableEq, Repr

/-- app.models.WorkResult, with the float processing time as a rational. -/
structure WorkResult where
  request_id : String
  input_hash : String
  output_hash : String
  iterations : Nat
  processing_time_ms : ℚ
deriving DecidableEq, Repr

/-- app.models.RequestRecord, with datetimes abstracted to naturals. -/
structure RequestRecord where
  id : String
  mode : RequestMode
  status : RequestStatus
  payload_hash : String
  created_at : Nat
  completed_at : Option Nat
  callback_url : Option String
  callback_attempts : Nat
  callback_last_error : Option String
  result : Option WorkResult
deriving DecidableEq, Repr

/-- Outcome of one outbound POST in the retry loop: an HTTP response with a
status code, an httpx.TimeoutException, or an httpx.RequestError carrying the
str of the exception. -/
inductive AttemptOutcome where
  | response (status_code : Int)
  | timeoutErr
  | requestError (msg : String)
deriving DecidableEq, Repr

/-- Observable events of a dispatcher or worker run: an outbound POST for the
0-indexed attempt (the X-Attempt header is attempt + 1), a backoff sleep of
the given duration in seconds, and a database.save_request of the given
record. -/
inductive Event where
  | httpPost (attempt : Nat)
  | sleepEv (delay : ℚ)
  | save (r : RequestRecord)
deriving DecidableEq, Repr

/-- The error string a failed attempt leaves in last_error, or none when the
response status code is in [200, 300) (attempt success). -/
def attemptError : AttemptOutcome → Option String
  | .response code => if 200 ≤ code && code < 300 then none
      else some ("HTTP " ++ toString code)
  | .timeoutErr => some "Timeout"
  | .requestError msg => some msg

/-- Python formatting of an optional string in an f-string: None prints as
the four-letter word, some s prints as s. -/
def fmtOptStr : Option String → String
  | none => "None"
  | some s => s

/-- CallbackWorkerPool._update_callback_status: fetch the record; when it
exists, set terminal status from the success flag, overwrite the last error
only when a truthy (non-empty) error string was given, and save. -/
def _update_callback_status (db : Option RequestRecord) (success : Bool)
    (error : Option String) : Option RequestRecord × List Event :=
  match db with
  | none => (none, [])
  | some record =>
    let r := { record with
      status := if success then RequestStatus.callback_success
        else RequestStatus.callback_failed,
      callback_last_error :=
        match error with
        | some e => if e = "" then record.callback_last_error else some e
        | none => record.callback_last_error }
    (some r, [Event.save r])

/-- CallbackWorkerPool._increment_callback_attempt: fetch the record; when it
exists, add one to callback_attempts, record the error string, and save. -/
def _increment_callback_attempt (db : Option RequestRecord) (error : String) :
    Option RequestRecord × List Event :=
  match db with
  | none => (none, [])
  | some record =>
    let r := { record with
      callback_attempts := record.callback_attempts + 1,
      callback_last_error := some error }
    (some r, [Event.save r])

/-- The backoff sleep duration computed after the given failed attempt:
min(base_delay * 2 ^ attempt, max_delay) scaled by 0.5 + random.random(). -/
def backoffDelay (stg : Settings) (jitter : Nat → ℚ) (attempt : Nat) : ℚ :=
  min (stg.callback_retry_base_delay * 2 ^ attempt) stg.callback_retry_max_delay
    * (1/2 + jitter attempt)

/-- The retry loop of CallbackWorkerPool._deliver_callback, for attempt in
range(callback_max_retries + 1): remaining counts the iterations left and
attempt is the current 0-indexed attempt number; lastError is the local
last_error variable. On loop exhaustion the terminal failure status is
recorded with the Max-retries-exceeded message. -/
def deliverLoop (stg : Settings) (outcomes : Nat → AttemptOutcome)
    (jitter : Nat → ℚ) :
    Nat → Nat → Option RequestRecord → Option String →
    Option RequestRecord × List Event
  | 0, _attempt, db, lastError =>
    _update_callback_status db false
      (some ("Max retries exceeded: " ++ fmtOptStr lastError))
  | remaining + 1, attempt, db, _lastError =>
    match attemptError (outcomes attempt) with
    | none =>
      let s := _update_callback_status db true none
      (s.1, Event.httpPost attempt :: s.2)
    | some err =>
      let s1 := _increment_callback_attempt db err
      let rest := deliverLoop stg outcomes jitter remaining (attempt + 1)
        s1.1 (some err)
      if attempt < stg.callback_max_retries then
        (rest.1, Event.httpPost attempt ::
          (s1.2 ++ Event.sleepEv (backoffDelay stg jitter attempt) :: rest.2))
      else
        (rest.1, Event.httpPost attempt :: (s1.2 ++ rest.2))

/-- CallbackWorkerPool._deliver_callback: validate the URL; when unsafe,
record the policy-block failure and return with no attempt; otherwise run the
retry loop over callback_max_retries + 1 attempts. -/
def _deliver_callback (stg : Settings) (parse : String → Option ParsedUrl)
    (resolve : String → Option IPInfo) (outcomes : Nat → AttemptOutcome)
    (jitter : Nat → ℚ) (callback_url : String) (db : Option RequestRecord) :
    Option RequestRecord × List Event :=
  if _is_safe_callback_url stg parse resolve callback_url then
    deliverLoop stg outcomes jitter (stg.callback_max_retries + 1) 0 db none
  else
    _update_callback_status db false
      (some "Callback URL blocked by security policy")

/-- Outcome of the Work Executor invocation: a result, or a raised exception
with its message. -/
inductive WorkOutcome where
  | ok (result : WorkResult)
  | exc (msg : String)
deriving DecidableEq, Repr

/-- CallbackWorkerPool._process_request: fetch the record and, when present,
save it as PROCESSING; run the work; on success save the record (when
present) as CALLBACK_PENDING with the result and completion time attached and
run the delivery; on a work exception save the record (when present) as
CALLBACK_FAILED carrying the exception text. -/
def _process_request (stg : Settings) (parse : String → Option ParsedUrl)
    (resolve : String → Option IPInfo) (outcomes : Nat → AttemptOutcome)
    (jitter : Nat → ℚ) (work : WorkOutcome) (callback_url : String) (now : Nat)
    (db : Option RequestRecord) : Option RequestRecord × List Event :=
  let step1 : Option RequestRecord × List Event :=
    match db with
    | none => (none, [])
    | some record =>
      let r := { record with status := RequestStatus.processing }
      (some r, [Event.save r])
  let db1 := step1.1
  let evs1 := step1.2
  match work with
  | .ok result =>
    let step2 : Option RequestRecord × List Event :=
      match db1 with
      | none => (none, [])
      | some record =>
        let r := { record with
          status := RequestStatus.callback_pending,
          result := some result,
          completed_at := some now }
        (some r, [Event.save r])
    let step3 := _deliver_callback stg parse resolve outcomes jitter
      callback_url step2.1
    (step3.1, evs1 ++ step2.2 ++ step3.2)
  | .exc msg =>
    match db1 with
    | none => (db1, evs1)
    | some record =>
      let r := { record with
        status := RequestStatus.callback_failed,
        callback_last_error := some msg }
      (some r, evs1 ++ [Event.save r])

/-- The statuses carried by the save events of a trace, in order: the
sequence of status values written to the store. -/
def savedStatuses (evs : List Event) : List RequestStatus :=
  evs.filterMap fun e => match e with
    | Event.save r => some r.status
    | _ => none

/-- The number of outbound POST events of a trace: the number of delivery
attempts made. -/
def countPosts (evs : List Event) : Nat :=
  (evs.filter fun e => match e with
    | Event.httpPost _ => true
    | _ => false).length

/-- The backoff sleep durations of a trace, in order. -/
def sleepDelays (evs : List Event) : List ℚ :=
  evs.filterMap fun e => match e with
    | Event.sleepEv d => some d
    | _ => none

/-- The callback_attempts values carried by the save events of a trace, in
order: how the stored attempt counter evolves. -/
def savedAttempts (evs : List Event) : List Nat :=
  evs.filterMap fun e => match e with
    | Event.save r => some r.callback_attempts
    | _ => none

/-- Whether an event is the outbound POST of attempt k. -/
def isPostOf (k : Nat) : Event → Bool
  | Event.httpPost a => a == k
  | _ => false

/-- The backoff sleep durations occurring in a trace strictly before the
outbound POST of the given attempt number: the delays slept before that
attempt. -/
def sleepsBeforePost (k : Nat) (evs : List Event) : List ℚ :=
  sleepDelays (evs.takeWhile fun e => !(isPostOf k e))

/-- The value of the local last_error variable after n loop iterations that
all failed, when it held le at iteration a: still le when no iteration ran,
else the error string of the last failed attempt, attempt a + n - 1. -/
def lastErrAt (outcomes : Nat → AttemptOutcome) (a : Nat) :
    Nat → Option String → Option String
  | 0, le => le
  | m + 1, _le => attemptError (outcomes (a + m))

/-- app.models.AsyncWorkPayload: the work payload plus the callback URL. -/
structure AsyncWorkPayload where
  data : String
  iterations : Nat
  callback_url : String
deriving DecidableEq, Repr

/-- The asyncio.Queue held by CallbackWorkerPool: a bounded FIFO buffer of
(request_id, payload) pairs. A maxsize of zero means unbounded, as in
asyncio. -/
structure JobQueue where
  maxsize : Nat
  items : List (String × AsyncWorkPayload)
deriving DecidableEq, Repr

/-- asyncio.Queue.full: true when the queue is bounded and holds at least
maxsize items. -/
def JobQueue.full (q : JobQueue) : Bool :=
  0 < q.maxsize && q.maxsize ≤ q.items.length

/-- asyncio.Queue.put_nowait: raise QueueFull (none) when full, else append
the item at the tail. -/
def put_nowait (q : JobQueue) (item : String × AsyncWorkPayload) :
    Option JobQueue :=
  if q.full then none else some { q with items := q.items ++ [item] }

/-- CallbackWorkerPool.enqueue: put_nowait the pair and report true, or catch
QueueFull and report false with the queue untouched. -/
def enqueue (q : JobQueue) (request_id : String) (payload : AsyncWorkPayload) :
    Bool × JobQueue :=
  match put_nowait q (request_id, payload) with
  | none => (false, q)
  | some q' => (true, q')

/-- asyncio.Queue.get as observed by a worker when an item is available: take
the oldest item from the head. -/
def queue_get (q : JobQueue) :
    Option ((String × AsyncWorkPayload) × JobQueue) :=
  match q.items with
  | [] => none
  | item :: rest => some (item, { q with items := rest })

/-- app.models.WorkPayload. -/
structure WorkPayload where
  data : String
  iterations : Nat
deriving DecidableEq, Repr

/-- The iterative hashing loop of work.compute_work_sync: for i in
range(iterations), rehash the string current ++ ":" ++ i. sha256 itself is an
opaque collaborator, passed as a function. -/
def hashLoop (sha256hex : String → String) : Nat → Nat → String → String
  | 0, _i, cur => cur
  | n + 1, i, cur => hashLoop sha256hex n (i + 1) (sha256hex (cur ++ ":" ++ toString i))

/-- work.compute_work_sync: hash the input, run the iterative hashing, and
return the WorkResult; the measured elapsed time enters only the
processing_time_ms field and is passed as a parameter. -/
def compute_work_sync (sha256hex : String → String) (elapsed_ms : ℚ)
    (request_id : String) (payload : WorkPayload) : WorkResult where
  request_id := request_id
  input_hash := sha256hex payload.data
  output_hash := hashLoop sha256hex payload.iterations 0 (sha256hex payload.data)
  iterations := payload.iterations
  processing_time_ms := elapsed_ms

/-- work.compute_work_async: runs compute_work_sync unchanged in a thread
pool; the value returned is the same. -/
def compute_work_async (sha256hex : String → String) (elapsed_ms : ℚ)
    (request_id : String) (payload : WorkPayload) : WorkResult :=
  compute_work_sync sha256hex elapsed_ms request_id payload

/-- What the awaited queue.get of one worker iteration produced: a
TimeoutError from the one-second wait_for, a CancelledError, or an item. -/
inductive GetResult where
  | timeoutErr
  | cancelled
  | item (request_id : String) (payload : AsyncWorkPayload)
deriving Repr

/-- Result of running a piece of Python code: a value, a raised Exception
with its message, or a CancelledError (which is not an Exception subclass in
asyncio and is caught separately). -/
inductive PyResult (α : Type) where
  | ok (a : α)
  | exc (msg : String)
  | cancelled
deriving Repr

/-- What one iteration of the worker while-loop does next. -/
inductive WorkerStep where
  | continueLoop
  | breakLoop
deriving DecidableEq, Repr

/-- One iteration of CallbackWorkerPool._worker: the inner try turns a
wait_for timeout into a continue; the outer try turns a CancelledError into a
break and catches every other exception, logging it and continuing the
loop. -/
def worker_iteration (get : GetResult)
    (process : String → AsyncWorkPayload → PyResult Unit) :
    PyResult WorkerStep :=
  let body : PyResult WorkerStep :=
    match get with
    | .timeoutErr => .ok .continueLoop
    | .cancelled => .cancelled
    | .item rid p =>
      match process rid p with
      | .ok _ => .ok .continueLoop
      | .exc m => .exc m
      | .cancelled => .cancelled
  match body with
  | .exc _ => .ok .continueLoop
  | .cancelled => .ok .breakLoop
  | .ok s => .ok s

/-- Fixture parse function: every URL parses with scheme http and hostname
example.com. -/
def parseExample : String → Option ParsedUrl :=
  fun _ => some ⟨"http", some "example.com"⟩

/-- Fixture parse function: every URL parses with scheme http and hostname
localhost. -/
def parseLocalhost : String → Option ParsedUrl :=
  fun _ => some ⟨"http", some "localhost"⟩

/-- Fixture resolver mapping every hostname to a public address. -/
def resolvePublic : String → Option IPInfo :=
  fun _ => some ⟨false, false, false, false, false⟩

/-- Fixture stored record: a pending async request with a callback URL and no
attempt yet. -/
def sampleRecord : RequestRecord :=
  ⟨"req-1", RequestMode.async, RequestStatus.pending, "ph", 0, none,
    some "http://example.com/hook", 0, none, none⟩

/-- Fixture work result. -/
def sampleResult : WorkResult :=
  ⟨"req-1", "ih", "oh", 5, 1⟩

/-- Fixture async payload. -/
def samplePayload : AsyncWorkPayload :=
  ⟨"d", 10, "http://example.com/hook"⟩

section TraceLemmas

@[simp] lemma savedStatuses_nil : savedStatuses [] = [] := rfl

@[simp] lemma savedStatuses_cons_post (a : Nat) (evs : List Event) :
    savedStatuses (Event.httpPost a :: evs) = savedStatuses evs := rfl

@[simp] lemma savedStatuses_cons_sleep (d : ℚ) (evs : List Event) :
    savedStatuses (Event.sleepEv d :: evs) = savedStatuses evs := rfl

@[simp] lemma savedStatuses_cons_save (r : RequestRecord) (evs : List Event) :
    savedStatuses (Event.save r :: evs) = r.status :: savedStatuses evs := rfl

@[simp] lemma savedStatuses_append (l1 l2 : List Event) :
    savedStatuses (l1 ++ l2) = savedStatuses l1 ++ savedStatuses l2 := by
  simp [savedStatuses, List.filterMap_append]

@[simp] lemma countPosts_nil : countPosts [] = 0 := rfl

@[simp] lemma countPosts_cons_post (a : Nat) (evs : List Event) :
    countPosts (Event.httpPost a :: evs) = countPosts evs + 1 := by
  simp [countPosts, List.filter]

@[simp] lemma countPosts_cons_sleep (d : ℚ) (evs : List Event) :
    countPosts (Event.sleepEv d :: evs) = countPosts evs := by
  simp [countPosts, List.filter]

@[simp] lemma countPosts_cons_save (r : RequestRecord) (evs : List Event) :
    countPosts (Event.save r :: evs) = countPosts evs := by
  simp [countPosts, List.filter]

@[simp] lemma countPosts_append (l1 l2 : List Event) :
    countPosts (l1 ++ l2) = countPosts l1 + countPosts l2 := by
  simp [countPosts, List.filter_append]

@[simp] lemma sleepDelays_nil : sleepDelays [] = [] := rfl

@[simp] lemma sleepDelays_cons_post (a : Nat) (evs : List Event) :
    sleepDelays (Event.httpPost a :: evs) = sleepDelays evs := rfl

@[simp] lemma sleepDelays_cons_sleep (d : ℚ) (evs : List Event) :
    sleepDelays (Event.sleepEv d :: evs) = d :: sleepDelays evs := rfl

@[simp] lemma sleepDelays_cons_save (r : RequestRecord) (evs : List Event) :
    sleepDelays (Event.save r :: evs) = sleepDelays evs := rfl

@[simp] lemma sleepDelays_append (l1 l2 : List Event) :
    sleepDelays (l1 ++ l2) = sleepDelays l1 ++ sleepDelays l2 := by
  simp [sleepDelays, List.filterMap_append]

@[simp] lemma savedAttempts_nil : savedAttempts [] = [] := rfl

@[simp] lemma savedAttempts_cons_post (a : Nat) (evs : List Event) :
    savedAttempts (Event.httpPost a :: evs) = savedAttempts evs := rfl

@[simp] lemma savedAttempts_cons_sleep (d : ℚ) (evs : List Event) :
    savedAttempts (Event.sleepEv d :: evs) = savedAttempts evs := rfl

@[simp] lemma savedAttempts_cons_save (r : RequestRecord) (evs : List Event) :
    savedAttempts (Event.save r :: evs) = r.callback_attempts :: savedAttempts evs := rfl

@[simp] lemma savedAttempts_append (l1 l2 : List Event) :
    savedAttempts (l1 ++ l2) = savedAttempts l1 ++ savedAttempts l2 := by
  simp [savedAttempts, List.filterMap_append]

end TraceLemmas

section StoreLemmas

@[simp] lemma countPosts_update (db : Option RequestRecord) (s : Bool) (e : Option String) :
    countPosts (_update_callback_status db s e).2 = 0 := by
  cases db <;> simp [_update_callback_status]

@[simp] lemma countPosts_increment (db : Option RequestRecord) (e : String) :
    countPosts (_increment_callback_attempt db e).2 = 0 := by
  cases db <;> simp [_increment_callback_attempt]

@[simp] lemma sleepDelays_update (db : Option RequestRecord) (s : Bool) (e : Option String) :
    sleepDelays (_update_callback_status db s e).2 = [] := by
  cases db <;> simp [_update_callback_status]

@[simp] lemma sleepDelays_increment (db : Option RequestRecord) (e : String) :
    sleepDelays (_increment_callback_attempt db e).2 = [] := by
  cases db <;> simp [_increment_callback_attempt]

/-- The message recorded on retry exhaustion is never the empty string, so
the truthiness test of _update_callback_status always stores it. -/
lemma maxRetriesMsg_ne_empty (s : String) :
    ("Max retries exceeded: " ++ s) ≠ "" := by
  intro h
  have h2 := congrArg String.length h
  rw [String.length_append] at h2
  have h3 : "Max retries exceeded: ".length = 22 := by decide
  have h4 : "".length = 0 := by decide
  omega

end StoreLemmas

section LoopLemmas

variable (stg : Settings) (outcomes : Nat → AttemptOutcome) (jitter : Nat → ℚ)

/-- A run of the retry loop over a missing record stores nothing and leaves
the store empty. -/
lemma deliverLoop_db_none :
    ∀ n a le, (deliverLoop stg outcomes jitter n a none le).1 = none ∧
      savedStatuses (deliverLoop stg outcomes jitter n a none le).2 = [] := by
  intro n
  induction n with
  | zero =>
    intro a le
    simp [deliverLoop, _update_callback_status]
  | succ n ih =>
    intro a le
    simp only [deliverLoop]
    cases h : attemptError (outcomes a) with
    | none =>
      simp [_update_callback_status]
    | some e =>
      simp only [_increment_callback_attempt]
      by_cases hlt : a < stg.callback_max_retries
      · simpa [hlt] using ih (a + 1) (some e)
      · simpa [hlt] using ih (a + 1) (some e)

/-- When every attempt fails, the retry loop makes one outbound POST per
remaining iteration, whatever the stored record is. -/
lemma deliverLoop_allFail_countPosts
    (hfail : ∀ k, attemptError (outcomes k) ≠ none) :
    ∀ n a db le, countPosts (deliverLoop stg outcomes jitter n a db le).2 = n := by
  intro n
  induction n with
  | zero =>
    intro a db le
    cases db <;> simp [deliverLoop, _update_callback_status]
  | succ n ih =>
    intro a db le
    obtain ⟨e, he⟩ := Option.ne_none_iff_exists'.mp (hfail a)
    simp only [deliverLoop, he]
    by_cases hlt : a < stg.callback_max_retries
    · cases db <;>
        simp [hlt, _increment_callback_attempt, ih]
    · cases db <;>
        simp [hlt, _increment_callback_attempt, ih]

/-- When every attempt fails, the retry loop over a present record ends with
the terminal failure status, the attempt counter grown by one per iteration,
and the Max-retries-exceeded message built from the last failure. -/
lemma deliverLoop_allFail_finalRecord
    (hfail : ∀ k, attemptError (outcomes k) ≠ none) :
    ∀ n a r le, (deliverLoop stg outcomes jitter n a (some r) le).1 =
      some { r with
        status := RequestStatus.callback_failed,
        callback_attempts := r.callback_attempts + n,
        callback_last_error := some ("Max retries exceeded: " ++
          fmtOptStr (lastErrAt outcomes a n le)) } := by
  intro n
  induction n with
  | zero =>
    intro a r le
    simp only [deliverLoop, _update_callback_status]
    rw [if_neg (maxRetriesMsg_ne_empty (fmtOptStr le))]
    simp [lastErrAt]
  | succ n ih =>
    intro a r le
    obtain ⟨e, he⟩ := Option.ne_none_iff_exists'.mp (hfail a)
    simp only [deliverLoop, he, _increment_callback_attempt]
    have hrec :
        (deliverLoop stg outcomes jitter n (a + 1)
          (some { r with
            callback_attempts := r.callback_attempts + 1,
            callback_last_error := some e }) (some e)).1 =
        some { r with
          status := RequestStatus.callback_failed,
          callback_attempts := r.callback_attempts + (n + 1),
          callback_last_error := some ("Max retries exceeded: " ++
            fmtOptStr (lastErrAt outcomes a (n + 1) le)) } := by
      rw [ih (a + 1)]
      have harith : r.callback_attempts + 1 + n = r.callback_attempts + (n + 1) := by
        omega
      have herr : lastErrAt outcomes (a + 1) n (some e) =
          lastErrAt outcomes a (n + 1) le := by
        cases n with
        | zero => simp [lastErrAt, he]
        | succ m =>
          simp only [lastErrAt]
          have : a + 1 + m = a + (m + 1) := by omega
          rw [this]
      rw [harith, herr]
    by_cases hlt : a < stg.callback_max_retries
    · simp only [hlt, if_true]
      exact hrec
    · simp only [hlt, if_false]
      exact hrec

/-- When every attempt fails, the records saved by the retry loop over a
present record are: one save per iteration with the status unchanged and the
attempt counter incremented by one each time, then the terminal failure save
still carrying the final counter value. -/
lemma deliverLoop_allFail_saved
    (hfail : ∀ k, attemptError (outcomes k) ≠ none) :
    ∀ n a r le,
      savedStatuses (deliverLoop stg outcomes jitter n a (some r) le).2 =
        List.replicate n r.status ++ [RequestStatus.callback_failed] ∧
      savedAttempts (deliverLoop stg outcomes jitter n a (some r) le).2 =
        (List.range n).map (fun i => r.callback_attempts + i + 1) ++
          [r.callback_attempts + n] := by
  intro n
  induction n with
  | zero =>
    intro a r le
    simp [deliverLoop, _update_callback_status]
  | succ n ih =>
    intro a r le
    obtain ⟨e, he⟩ := Option.ne_none_iff_exists'.mp (hfail a)
    simp only [deliverLoop, he, _increment_callback_attempt]
    have ihs := ih (a + 1)
      { r with
        callback_attempts := r.callback_attempts + 1,
        callback_last_error := some e } (some e)
    have hfun : ∀ i : Nat,
        r.callback_attempts + 1 + i + 1 = r.callback_attempts + (i + 1) + 1 := by
      omega
    have htail : r.callback_attempts + 1 + n = r.callback_attempts + (n + 1) := by
      omega
    by_cases hlt : a < stg.callback_max_retries
    · refine ⟨?_, ?_⟩
      · simp only [hlt, if_true]
        simp [ihs.1, List.replicate_succ]
      · simp only [hlt, if_true]
        simp only [savedAttempts_cons_post, savedAttempts_append,
          savedAttempts_cons_save, savedAttempts_cons_sleep, savedAttempts_nil]
        rw [ihs.2]
        simp only [List.range_succ_eq_map, List.map_cons, List.map_map]
        simp [Function.comp, hfun, htail]
    · refine ⟨?_, ?_⟩
      · simp only [hlt, if_false]
        simp [ihs.1, List.replicate_succ]
      · simp only [hlt, if_false]
        simp only [savedAttempts_cons_post, savedAttempts_append,
          savedAttempts_cons_save, savedAttempts_nil]
        rw [ihs.2]
        simp only [List.range_succ_eq_map, List.map_cons, List.map_map]
        simp [Function.comp, hfun, htail]

/-- When every attempt fails and the loop is entered with its real bound
(attempt index plus remaining iterations equal to max_retries + 1), the
backoff sleeps are exactly one per non-final iteration, with the computed
jittered delay. -/
lemma deliverLoop_allFail_sleeps
    (hfail : ∀ k, attemptError (outcomes k) ≠ none) :
    ∀ n a db le, a + n = stg.callback_max_retries + 1 →
      sleepDelays (deliverLoop stg outcomes jitter n a db le).2 =
        (List.range (n - 1)).map (fun i => backoffDelay stg jitter (a + i)) := by
  intro n
  induction n with
  | zero =>
    intro a db le _hsum
    simp [deliverLoop]
  | succ n ih =>
    intro a db le hsum
    obtain ⟨e, he⟩ := Option.ne_none_iff_exists'.mp (hfail a)
    by_cases hlt : a < stg.callback_max_retries
    · obtain ⟨n', rfl⟩ : ∃ n', n = n' + 1 := ⟨n - 1, by omega⟩
      have ih' := ih (a + 1)
        (_increment_callback_attempt db e).1 (some e) (by omega)
      rw [deliverLoop]
      simp only [he, hlt, if_true]
      simp only [sleepDelays_cons_post, sleepDelays_append, sleepDelays_increment,
        sleepDelays_cons_sleep, List.nil_append]
      rw [ih']
      have hfun : ∀ i : Nat, a + 1 + i = a + (i + 1) := by omega
      simp only [Nat.add_sub_cancel, List.range_succ_eq_map, List.map_cons,
        List.map_map]
      simp [Function.comp, hfun]
    · have hn : n = 0 := by omega
      subst hn
      simp only [deliverLoop, he, hlt, if_false]
      simp [deliverLoop]

/-- When every attempt fails, the first attempt to yield a 2xx response (the
j-th, all earlier ones failing) ends the loop: the stored record gets the
success status with the counter grown only by the j failures, one POST is
made per attempt up to and including the j-th, and the saves are the j
increments followed by the success save. -/
lemma deliverLoop_success :
    ∀ j n a r le, j < n →
      (∀ i, i < j → attemptError (outcomes (a + i)) ≠ none) →
      attemptError (outcomes (a + j)) = none →
      (deliverLoop stg outcomes jitter n a (some r) le).1 =
        some { r with
          status := RequestStatus.callback_success,
          callback_attempts := r.callback_attempts + j,
          callback_last_error := lastErrAt outcomes a j r.callback_last_error } ∧
      countPosts (deliverLoop stg outcomes jitter n a (some r) le).2 = j + 1 ∧
      savedStatuses (deliverLoop stg outcomes jitter n a (some r) le).2 =
        List.replicate j r.status ++ [RequestStatus.callback_success] := by
  intro j
  induction j with
  | zero =>
    intro n a r le hj _hfail hsucc
    obtain ⟨n', rfl⟩ : ∃ n', n = n' + 1 := ⟨n - 1, by omega⟩
    rw [Nat.add_zero] at hsucc
    simp [deliverLoop, hsucc, _update_callback_status, lastErrAt]
  | succ j ih =>
    intro n a r le hj hfail hsucc
    obtain ⟨n', rfl⟩ : ∃ n', n = n' + 1 := ⟨n - 1, by omega⟩
    have he0 : attemptError (outcomes a) ≠ none := by
      have := hfail 0 (by omega)
      rwa [Nat.add_zero] at this
    obtain ⟨e, he⟩ := Option.ne_none_iff_exists'.mp he0
    have ihs := ih n' (a + 1)
      { r with
        callback_attempts := r.callback_attempts + 1,
        callback_last_error := some e } (some e)
      (by omega)
      (by
        intro i hi
        have := hfail (i + 1) (by omega)
        have harith : a + (i + 1) = a + 1 + i := by omega
        rwa [harith] at this)
      (by
        have harith : a + (j + 1) = a + 1 + j := by omega
        rwa [harith] at hsucc)
    have harith2 : r.callback_attempts + 1 + j = r.callback_attempts + (j + 1) := by
      omega
    have herr : lastErrAt outcomes (a + 1) j (some e) =
        lastErrAt outcomes a (j + 1) r.callback_last_error := by
      cases j with
      | zero => simp [lastErrAt, he]
      | succ m =>
        simp only [lastErrAt]
        have : a + 1 + m = a + (m + 1) := by omega
        rw [this]
    by_cases hlt : a < stg.callback_max_retries
    · refine ⟨?_, ?_, ?_⟩
      · simp only [deliverLoop, he, hlt, if_true, _increment_callback_attempt]
        rw [ihs.1, harith2, herr]
      · simp only [deliverLoop, he, hlt, if_true, _increment_callback_attempt]
        simp [ihs.2.1]
      · simp only [deliverLoop, he, hlt, if_true, _increment_callback_attempt]
        simp [ihs.2.2, List.replicate_succ]
    · refine ⟨?_, ?_, ?_⟩
      · simp only [deliverLoop, he, hlt, if_false, _increment_callback_attempt]
        rw [ihs.1, harith2, herr]
      · simp only [deliverLoop, he, hlt, if_false, _increment_callback_attempt]
        simp [ihs.2.1]
      · simp only [deliverLoop, he, hlt, if_false, _increment_callback_attempt]
        simp [ihs.2.2, List.replicate_succ]

/-- When every attempt fails and the loop is entered with its real bound, the
trace ends with the POST of the final attempt followed only by saves: no
sleep happens after the final attempt. -/
lemma deliverLoop_allFail_afterLastPost
    (hfail : ∀ k, attemptError (outcomes k) ≠ none) :
    ∀ n a db le, a + n = stg.callback_max_retries →
      ∃ pre tail, (deliverLoop stg outcomes jitter (n + 1) a db le).2 =
        pre ++ Event.httpPost (a + n) :: tail ∧ sleepDelays tail = [] := by
  intro n
  induction n with
  | zero =>
    intro a db le hsum
    obtain ⟨e, he⟩ := Option.ne_none_iff_exists'.mp (hfail a)
    have hlt : ¬ a < stg.callback_max_retries := by omega
    simp only [Nat.add_zero]
    refine ⟨[], (_increment_callback_attempt db e).2 ++
      (_update_callback_status (_increment_callback_attempt db e).1 false
        (some ("Max retries exceeded: " ++ fmtOptStr (some e)))).2, ?_, ?_⟩
    · simp only [deliverLoop, he, hlt, if_false]
      simp
    · simp
  | succ n ih =>
    intro a db le hsum
    obtain ⟨e, he⟩ := Option.ne_none_iff_exists'.mp (hfail a)
    have hlt : a < stg.callback_max_retries := by omega
    obtain ⟨pre, tail, heq, hsleep⟩ := ih (a + 1)
      (_increment_callback_attempt db e).1 (some e) (by omega)
    refine ⟨Event.httpPost a ::
      ((_increment_callback_attempt db e).2 ++
        Event.sleepEv (backoffDelay stg jitter a) :: pre), tail, ?_, hsleep⟩
    rw [deliverLoop]
    simp only [he, hlt, if_true]
    rw [heq]
    have harith : a + 1 + n = a + (n + 1) := by omega
    simp [harith]

end LoopLemmas

/-- C1: the SSRF validator returns false when the scheme is outside the
default allow-list (http, https); with private-IP blocking enabled (the
default) it returns false for hostnames whose lowercase form is a localhost
variant, for hostnames whose resolution fails, and for hostnames resolving to
a private, loopback, link-local, reserved or multicast address; a URL parse
failure also gives false; and for a parsed URL with an allowed scheme whose
hostname is no localhost variant and resolves to a public address it returns
true. -/
theorem c1_is_safe_callback_url_spec (parse : String → Option ParsedUrl)
    (resolve : String → Option IPInfo) (url : String) :
    (parse url = none →
      _is_safe_callback_url defaultSettings parse resolve url = false) ∧
    (∀ p, parse url = some p → p.scheme ∉ ["http", "https"] →
      _is_safe_callback_url defaultSettings parse resolve url = false) ∧
    (∀ p, parse url = some p → strLower (p.hostname.getD "") ∈ localhostVariants →
      _is_safe_callback_url defaultSettings parse resolve url = false) ∧
    (∀ p, parse url = some p → resolve (p.hostname.getD "") = none →
      _is_safe_callback_url defaultSettings parse resolve url = false) ∧
    (∀ p info, parse url = some p → resolve (p.hostname.getD "") = some info →
      (info.is_private || info.is_loopback || info.is_link_local ||
        info.is_reserved || info.is_multicast) = true →
      _is_safe_callback_url defaultSettings parse resolve url = false) ∧
    (∀ p info, parse url = some p → p.scheme ∈ ["http", "https"] →
      strLower (p.hostname.getD "") ∉ localhostVariants →
      resolve (p.hostname.getD "") = some info →
      info.is_private = false → info.is_loopback = false →
      info.is_link_local = false → info.is_reserved = false →
      info.is_multicast = false →
      _is_safe_callback_url defaultSettings parse resolve url = true) := by
  refine ⟨?_, ?_, ?_, ?_, ?_, ?_⟩
  · intro h
    simp [_is_safe_callback_url, h]
  · intro p hp hs
    simp only [_is_safe_callback_url, hp]
    have : (p.scheme ∈ defaultSettings.callback_allowed_schemes) = False := by
      simpa [defaultSettings] using hs
    simp [this]
  · intro p hp hv
    simp only [_is_safe_callback_url, hp]
    split
    · simp [defaultSettings, hv]
    · rfl
  · intro p hp hres
    simp [_is_safe_callback_url, hp, is_private_ip, hres, defaultSettings]
  · intro p info hp hres hflag
    simp [_is_safe_callback_url, hp, is_private_ip, hres, hflag, defaultSettings]
  · intro p info hp hs hv hres h1 h2 h3 h4 h5
    have hs' : p.scheme ∈ defaultSettings.callback_allowed_schemes := by
      simpa [defaultSettings] using hs
    simp only [_is_safe_callback_url, hp]
    rw [if_pos hs']
    have hb : defaultSettings.callback_block_private_ips = true := rfl
    simp only [hb, if_true]
    rw [if_neg hv]
    simp [is_private_ip, hres, h1, h2, h3, h4, h5]

/-- Witness for c1_is_safe_callback_url_spec: a public host with scheme http
is accepted, and the same host with scheme ftp is rejected. -/
theorem c1_is_safe_callback_url_spec_witness :
    _is_safe_callback_url defaultSettings
      (fun _ => some ⟨"http", some "example.com"⟩)
      (fun _ => some ⟨false, false, false, false, false⟩)
      "http://example.com/hook" = true ∧
    _is_safe_callback_url defaultSettings
      (fun _ => some ⟨"ftp", some "example.com"⟩)
      (fun _ => some ⟨false, false, false, false, false⟩)
      "ftp://example.com/hook" = false := by
  constructor
  · exact (c1_is_safe_callback_url_spec
      (fun _ => some ⟨"http", some "example.com"⟩)
      (fun _ => some ⟨false, false, false, false, false⟩)
      "http://example.com/hook").2.2.2.2.2
      ⟨"http", some "example.com"⟩ ⟨false, false, false, false, false⟩
      rfl (by decide) (by decide) rfl rfl rfl rfl rfl rfl
  · exact (c1_is_safe_callback_url_spec
      (fun _ => some ⟨"ftp", some "example.com"⟩)
      (fun _ => some ⟨false, false, false, false, false⟩)
      "ftp://example.com/hook").2.1
      ⟨"ftp", some "example.com"⟩ rfl (by decide)

/-- The policy-block message is truthy, so _update_callback_status stores
it. -/
lemma policyMsg_ne_empty :
    ("Callback URL blocked by security policy" : String) ≠ "" := by
  decide

/-- C2: when the SSRF validator judges the callback URL unsafe, the delivery
run is exactly one save recording CALLBACK_FAILED with the fixed
policy-block error: no HTTP request is issued, no retry or sleep occurs, and
callback_attempts is left unchanged. -/
theorem c2_unsafe_url_blocked (stg : Settings) (parse : String → Option ParsedUrl)
    (resolve : String → Option IPInfo) (outcomes : Nat → AttemptOutcome)
    (jitter : Nat → ℚ) (url : String) (r : RequestRecord)
    (hblocked : _is_safe_callback_url stg parse resolve url = false) :
    _deliver_callback stg parse resolve outcomes jitter url (some r) =
      (some { r with
          status := RequestStatus.callback_failed,
          callback_last_error := some "Callback URL blocked by security policy" },
       [Event.save { r with
          status := RequestStatus.callback_failed,
          callback_last_error := some "Callback URL blocked by security policy" }]) ∧
    countPosts (_deliver_callback stg parse resolve outcomes jitter url (some r)).2 = 0 ∧
    sleepDelays (_deliver_callback stg parse resolve outcomes jitter url (some r)).2 = [] ∧
    ((_deliver_callback stg parse resolve outcomes jitter url (some r)).1.map
      fun r' => r'.callback_attempts) = some r.callback_attempts := by
  have h1 : _deliver_callback stg parse resolve outcomes jitter url (some r) =
      (some { r with
          status := RequestStatus.callback_failed,
          callback_last_error := some "Callback URL blocked by security policy" },
       [Event.save { r with
          status := RequestStatus.callback_failed,
          callback_last_error := some "Callback URL blocked by security policy" }]) := by
    simp only [_deliver_callback, hblocked, Bool.false_eq_true, if_false,
      _update_callback_status]
    rw [if_neg policyMsg_ne_empty]
  refine ⟨h1, ?_, ?_, ?_⟩ <;> rw [h1] <;> rfl

/-- Witness for c2_unsafe_url_blocked: a callback URL whose host parses as
localhost is blocked without any POST. -/
theorem c2_unsafe_url_blocked_witness :
    _deliver_callback defaultSettings parseLocalhost resolvePublic
      (fun _ => AttemptOutcome.response 200) (fun _ => (1:ℚ)/2)
      "http://localhost/hook" (some sampleRecord) =
      (some { sampleRecord with
          status := RequestStatus.callback_failed,
          callback_last_error := some "Callback URL blocked by security policy" },
       [Event.save { sampleRecord with
          status := RequestStatus.callback_failed,
          callback_last_error := some "Callback URL blocked by security policy" }]) ∧
    countPosts (_deliver_callback defaultSettings parseLocalhost resolvePublic
      (fun _ => AttemptOutcome.response 200) (fun _ => (1:ℚ)/2)
      "http://localhost/hook" (some sampleRecord)).2 = 0 ∧
    sleepDelays (_deliver_callback defaultSettings parseLocalhost resolvePublic
      (fun _ => AttemptOutcome.response 200) (fun _ => (1:ℚ)/2)
      "http://localhost/hook" (some sampleRecord)).2 = [] ∧
    ((_deliver_callback defaultSettings parseLocalhost resolvePublic
      (fun _ => AttemptOutcome.response 200) (fun _ => (1:ℚ)/2)
      "http://localhost/hook" (some sampleRecord)).1.map
      fun r' => r'.callback_attempts) = some sampleRecord.callback_attempts := by
  exact c2_unsafe_url_blocked defaultSettings parseLocalhost resolvePublic
    (fun _ => AttemptOutcome.response 200) (fun _ => (1:ℚ)/2)
    "http://localhost/hook" sampleRecord (by decide)

/-- C3: when every attempt fails, the delivery over a safe URL makes exactly
max_retries + 1 POSTs, increments the stored attempt counter once per
attempt (the saved counter values rise by one max_retries + 1 times), and
ends with CALLBACK_FAILED carrying the Max-retries-exceeded message built
from the last failure. -/
theorem c3_all_fail_exhausts_retries (stg : Settings)
    (parse : String → Option ParsedUrl) (resolve : String → Option IPInfo)
    (outcomes : Nat → AttemptOutcome) (jitter : Nat → ℚ) (url : String)
    (r : RequestRecord)
    (hsafe : _is_safe_callback_url stg parse resolve url = true)
    (hfail : ∀ k, attemptError (outcomes k) ≠ none) :
    (_deliver_callback stg parse resolve outcomes jitter url (some r)).1 =
      some { r with
        status := RequestStatus.callback_failed,
        callback_attempts := r.callback_attempts + (stg.callback_max_retries + 1),
        callback_last_error := some ("Max retries exceeded: " ++
          fmtOptStr (attemptError (outcomes stg.callback_max_retries))) } ∧
    countPosts (_deliver_callback stg parse resolve outcomes jitter url (some r)).2 =
      stg.callback_max_retries + 1 ∧
    savedAttempts (_deliver_callback stg parse resolve outcomes jitter url (some r)).2 =
      (List.range (stg.callback_max_retries + 1)).map
        (fun i => r.callback_attempts + i + 1) ++
        [r.callback_attempts + (stg.callback_max_retries + 1)] := by
  have hun : _deliver_callback stg parse resolve outcomes jitter url (some r) =
      deliverLoop stg outcomes jitter (stg.callback_max_retries + 1) 0 (some r) none := by
    simp [_deliver_callback, hsafe]
  refine ⟨?_, ?_, ?_⟩
  · rw [hun, deliverLoop_allFail_finalRecord stg outcomes jitter hfail]
    simp [lastErrAt]
  · rw [hun, deliverLoop_allFail_countPosts stg outcomes jitter hfail]
  · rw [hun]
    exact (deliverLoop_allFail_saved stg outcomes jitter hfail
      (stg.callback_max_retries + 1) 0 r none).2

/-- Witness for c3_all_fail_exhausts_retries: with the default max_retries of
3 and every POST answered 500, exactly 4 POSTs happen, the saved counter
values are 1, 2, 3, 4 and then 4 again on the terminal save, and the final
record is CALLBACK_FAILED with 4 attempts. -/
theorem c3_all_fail_exhausts_retries_witness :
    (_deliver_callback defaultSettings parseExample resolvePublic
      (fun _ => AttemptOutcome.response 500) (fun _ => (1:ℚ)/2)
      "http://example.com/hook" (some sampleRecord)).1 =
      some { sampleRecord with
        status := RequestStatus.callback_failed,
        callback_attempts := 4,
        callback_last_error := some "Max retries exceeded: HTTP 500" } ∧
    countPosts (_deliver_callback defaultSettings parseExample resolvePublic
      (fun _ => AttemptOutcome.response 500) (fun _ => (1:ℚ)/2)
      "http://example.com/hook" (some sampleRecord)).2 = 4 ∧
    savedAttempts (_deliver_callback defaultSettings parseExample resolvePublic
      (fun _ => AttemptOutcome.response 500) (fun _ => (1:ℚ)/2)
      "http://example.com/hook" (some sampleRecord)).2 = [1, 2, 3, 4, 4] := by
  obtain ⟨h1, h2, h3⟩ := c3_all_fail_exhausts_retries defaultSettings parseExample
    resolvePublic (fun _ => AttemptOutcome.response 500) (fun _ => (1:ℚ)/2)
    "http://example.com/hook" sampleRecord (by decide) (fun _k => by simp [attemptError])
  refine ⟨?_, ?_, ?_⟩
  · rw [h1]
    decide
  · rw [h2]
    decide
  · rw [h3]
    decide

/-- C4: the first attempt whose response status code lies in [200, 300) is
terminal: the stored record gets CALLBACK_SUCCESS, exactly the attempts up
to and including the successful one are POSTed, and the saves are one
increment per earlier failure followed by the success save, so
callback_attempts ends at the number of failures (the successful attempt is
not counted). -/
theorem c4_first_2xx_terminal (stg : Settings)
    (parse : String → Option ParsedUrl) (resolve : String → Option IPInfo)
    (outcomes : Nat → AttemptOutcome) (jitter : Nat → ℚ) (url : String)
    (r : RequestRecord) (j : Nat)
    (hsafe : _is_safe_callback_url stg parse resolve url = true)
    (hj : j < stg.callback_max_retries + 1)
    (hfail : ∀ i, i < j → attemptError (outcomes i) ≠ none)
    (hsucc : attemptError (outcomes j) = none) :
    (_deliver_callback stg parse resolve outcomes jitter url (some r)).1 =
      some { r with
        status := RequestStatus.callback_success,
        callback_attempts := r.callback_attempts + j,
        callback_last_error := lastErrAt outcomes 0 j r.callback_last_error } ∧
    countPosts (_deliver_callback stg parse resolve outcomes jitter url (some r)).2 =
      j + 1 ∧
    savedStatuses (_deliver_callback stg parse resolve outcomes jitter url (some r)).2 =
      List.replicate j r.status ++ [RequestStatus.callback_success] := by
  have hun : _deliver_callback stg parse resolve outcomes jitter url (some r) =
      deliverLoop stg outcomes jitter (stg.callback_max_retries + 1) 0 (some r) none := by
    simp [_deliver_callback, hsafe]
  have h := deliverLoop_success stg outcomes jitter j
    (stg.callback_max_retries + 1) 0 r none hj
    (by
      intro i hi
      rw [Nat.zero_add]
      exact hfail i hi)
    (by rwa [Nat.zero_add])
  exact ⟨by rw [hun]; exact h.1, by rw [hun]; exact h.2.1, by rw [hun]; exact h.2.2⟩

/-- Witness for c4_first_2xx_terminal: a URL answering 500 on attempts 0, 1
and 2 and 200 on attempt 3 ends in CALLBACK_SUCCESS with callback_attempts
equal to 3, after exactly 4 POSTs. -/
theorem c4_first_2xx_terminal_witness :
    (_deliver_callback defaultSettings parseExample resolvePublic
      (fun k => if k < 3 then AttemptOutcome.response 500 else AttemptOutcome.response 200)
      (fun _ => (1:ℚ)/2) "http://example.com/hook" (some sampleRecord)).1 =
      some { sampleRecord with
        status := RequestStatus.callback_success,
        callback_attempts := 3,
        callback_last_error := some "HTTP 500" } ∧
    countPosts (_deliver_callback defaultSettings parseExample resolvePublic
      (fun k => if k < 3 then AttemptOutcome.response 500 else AttemptOutcome.response 200)
      (fun _ => (1:ℚ)/2) "http://example.com/hook" (some sampleRecord)).2 = 4 ∧
    savedStatuses (_deliver_callback defaultSettings parseExample resolvePublic
      (fun k => if k < 3 then AttemptOutcome.response 500 else AttemptOutcome.response 200)
      (fun _ => (1:ℚ)/2) "http://example.com/hook" (some sampleRecord)).2 =
      [RequestStatus.pending, RequestStatus.pending, RequestStatus.pending,
        RequestStatus.callback_success] := by
  obtain ⟨h1, h2, h3⟩ := c4_first_2xx_terminal defaultSettings parseExample
    resolvePublic
    (fun k => if k < 3 then AttemptOutcome.response 500 else AttemptOutcome.response 200)
    (fun _ => (1:ℚ)/2) "http://example.com/hook" sampleRecord 3
    (by decide) (by decide)
    (by
      intro i hi
      interval_cases i <;> decide)
    (by decide)
  refine ⟨?_, ?_, ?_⟩
  · rw [h1]
    decide
  · rw [h2]
  · rw [h3]
    decide

/-- C5 counterexample: a stored record with a callback URL present whose work
execution raises ends in CALLBACK_FAILED with the status writes PROCESSING
then CALLBACK_FAILED: CALLBACK_PENDING is never written, so the claim that no
transition skips CALLBACK_PENDING when a callback_url is present fails on the
work-failure path of _process_request. -/
theorem c5_counterexample :
    sampleRecord.callback_url = some "http://example.com/hook" ∧
    savedStatuses (_process_request defaultSettings parseExample resolvePublic
      (fun _ => AttemptOutcome.response 200) (fun _ => (1:ℚ)/2)
      (WorkOutcome.exc "boom") "http://example.com/hook" 7 (some sampleRecord)).2 =
      [RequestStatus.processing, RequestStatus.callback_failed] ∧
    RequestStatus.callback_failed ∈
      savedStatuses (_process_request defaultSettings parseExample resolvePublic
        (fun _ => AttemptOutcome.response 200) (fun _ => (1:ℚ)/2)
        (WorkOutcome.exc "boom") "http://example.com/hook" 7 (some sampleRecord)).2 ∧
    RequestStatus.callback_pending ∉
      savedStatuses (_process_request defaultSettings parseExample resolvePublic
        (fun _ => AttemptOutcome.response 200) (fun _ => (1:ℚ)/2)
        (WorkOutcome.exc "boom") "http://example.com/hook" 7 (some sampleRecord)).2 := by
  refine ⟨rfl, ?_, ?_, ?_⟩ <;> decide

/-- C5 (amended): on the success path every status sequence written by
_process_request passes through CALLBACK_PENDING before CALLBACK_SUCCESS; but
when the work executor raises, CALLBACK_FAILED is written directly after
PROCESSING with no CALLBACK_PENDING in between (and the queue-full path of
the async endpoint likewise writes CALLBACK_FAILED directly after PENDING). -/
theorem c5_amended_pending_before_success (stg : Settings)
    (parse : String → Option ParsedUrl) (resolve : String → Option IPInfo)
    (outcomes : Nat → AttemptOutcome) (jitter : Nat → ℚ) (work : WorkOutcome)
    (url : String) (now : Nat) (r : RequestRecord) :
    (RequestStatus.callback_success ∈
        savedStatuses (_process_request stg parse resolve outcomes jitter
          work url now (some r)).2 →
      RequestStatus.callback_pending ∈
        (savedStatuses (_process_request stg parse resolve outcomes jitter
          work url now (some r)).2).takeWhile
          (fun s => s != RequestStatus.callback_success)) ∧
    (∀ msg, work = WorkOutcome.exc msg →
      savedStatuses (_process_request stg parse resolve outcomes jitter
        work url now (some r)).2 =
        [RequestStatus.processing, RequestStatus.callback_failed]) := by
  cases work with
  | ok result =>
    constructor
    · intro _hmem
      simp only [_process_request, savedStatuses_append, savedStatuses_cons_save,
        savedStatuses_nil]
      simp [List.takeWhile_cons]
    · intro msg hmsg
      exact WorkOutcome.noConfusion hmsg
  | exc msg =>
    constructor
    · intro hmem
      simp [_process_request] at hmem
    · intro msg' _hmsg
      simp [_process_request]

/-- Witness for c5_amended_pending_before_success: a successful run writes
CALLBACK_PENDING strictly before CALLBACK_SUCCESS, and a work failure writes
PROCESSING then CALLBACK_FAILED. -/
theorem c5_amended_pending_before_success_witness :
    RequestStatus.callback_pending ∈
      (savedStatuses (_process_request defaultSettings parseExample resolvePublic
        (fun _ => AttemptOutcome.response 200) (fun _ => (1:ℚ)/2)
        (WorkOutcome.ok sampleResult) "http://example.com/hook" 7
        (some sampleRecord)).2).takeWhile
        (fun s => s != RequestStatus.callback_success) ∧
    savedStatuses (_process_request defaultSettings parseExample resolvePublic
      (fun _ => AttemptOutcome.response 200) (fun _ => (1:ℚ)/2)
      (WorkOutcome.exc "crash") "http://example.com/hook" 7 (some sampleRecord)).2 =
      [RequestStatus.processing, RequestStatus.callback_failed] := by
  constructor
  · exact (c5_amended_pending_before_success defaultSettings parseExample
      resolvePublic (fun _ => AttemptOutcome.response 200) (fun _ => (1:ℚ)/2)
      (WorkOutcome.ok sampleResult) "http://example.com/hook" 7 sampleRecord).1
      (by decide)
  · exact (c5_amended_pending_before_success defaultSettings parseExample
      resolvePublic (fun _ => AttemptOutcome.response 200) (fun _ => (1:ℚ)/2)
      (WorkOutcome.exc "crash") "http://example.com/hook" 7 sampleRecord).2
      "crash" rfl

/-- C6 counterexample: in a run with the default settings (base delay 1, max
delay 30, max_retries 3), every attempt timing out and a jitter draw of 1/10,
the only delay slept before attempt 1 is min(1 * 2^0, 30) * (0.5 + 0.1) =
3/5, which does not lie in the claimed interval
[0.5, 1.5) * min(base * 2^1, max) = [1, 3): the claim indexes the sleeps one
attempt too late. -/
theorem c6_counterexample :
    sleepsBeforePost 1 ((_deliver_callback defaultSettings parseExample
      resolvePublic (fun _ => AttemptOutcome.timeoutErr) (fun _ => (1:ℚ)/10)
      "http://example.com/hook" (some sampleRecord)).2) = [3/5] ∧
    ¬ (1/2 * min (defaultSettings.callback_retry_base_delay * 2 ^ 1)
        defaultSettings.callback_retry_max_delay ≤ (3/5 : ℚ)) := by
  constructor
  · have hsafe : _is_safe_callback_url defaultSettings parseExample resolvePublic
        "http://example.com/hook" = true := by decide
    simp only [sleepsBeforePost, _deliver_callback, hsafe, if_true]
    norm_num [deliverLoop, attemptError, _increment_callback_attempt,
      _update_callback_status, List.takeWhile, isPostOf, sleepDelays,
      List.filterMap, backoffDelay, defaultSettings, min_def]
  · norm_num [defaultSettings, min_def]

/-- C6 (amended): the backoff delay slept after a failed attempt k (hence
before attempt k + 1), for k < max_retries, equals
min(base_delay * 2^k, max_delay) times 0.5 + random(), a factor in
[0.5, 1.5), so with positive base and max delays it lies in
[0.5, 1.5) * min(base_delay * 2^k, max_delay); in an all-failure run the
sleeps are exactly one per non-final attempt, in attempt order, and no sleep
follows the final attempt (the trace after the last POST holds no sleep). -/
theorem c6_amended_backoff_after_attempt (stg : Settings)
    (parse : String → Option ParsedUrl) (resolve : String → Option IPInfo)
    (outcomes : Nat → AttemptOutcome) (jitter : Nat → ℚ) (url : String)
    (db : Option RequestRecord)
    (hsafe : _is_safe_callback_url stg parse resolve url = true)
    (hfail : ∀ k, attemptError (outcomes k) ≠ none)
    (hbase : 0 < stg.callback_retry_base_delay)
    (hmax : 0 < stg.callback_retry_max_delay)
    (hjit : ∀ k, 0 ≤ jitter k ∧ jitter k < 1) :
    sleepDelays (_deliver_callback stg parse resolve outcomes jitter url db).2 =
      (List.range stg.callback_max_retries).map
        (fun k => backoffDelay stg jitter k) ∧
    (∀ k,
      1/2 * min (stg.callback_retry_base_delay * 2 ^ k)
          stg.callback_retry_max_delay ≤ backoffDelay stg jitter k ∧
      backoffDelay stg jitter k <
        3/2 * min (stg.callback_retry_base_delay * 2 ^ k)
          stg.callback_retry_max_delay) ∧
    (∃ pre tail, (_deliver_callback stg parse resolve outcomes jitter url db).2 =
      pre ++ Event.httpPost stg.callback_max_retries :: tail ∧
      sleepDelays tail = []) := by
  have hun : _deliver_callback stg parse resolve outcomes jitter url db =
      deliverLoop stg outcomes jitter (stg.callback_max_retries + 1) 0 db none := by
    simp [_deliver_callback, hsafe]
  refine ⟨?_, ?_, ?_⟩
  · rw [hun, deliverLoop_allFail_sleeps stg outcomes jitter hfail
      (stg.callback_max_retries + 1) 0 db none (by omega)]
    simp
  · intro k
    have hMpos : 0 < min (stg.callback_retry_base_delay * 2 ^ k)
        stg.callback_retry_max_delay := by
      apply lt_min
      · exact mul_pos hbase (pow_pos (by norm_num) k)
      · exact hmax
    have hj0 := (hjit k).1
    have hj1 := (hjit k).2
    unfold backoffDelay
    constructor
    · nlinarith [hMpos, hj0]
    · nlinarith [hMpos, hj1]
  · obtain ⟨pre, tail, heq, hsleep⟩ := deliverLoop_allFail_afterLastPost stg
      outcomes jitter hfail stg.callback_max_retries 0 db none (by omega)
    refine ⟨pre, tail, ?_, hsleep⟩
    rw [hun]
    rw [Nat.zero_add] at heq
    exact heq

/-- Witness for c6_amended_backoff_after_attempt at the default settings with
every attempt timing out and a constant jitter draw of 1/2. -/
theorem c6_amended_backoff_after_attempt_witness :
    sleepDelays ((_deliver_callback defaultSettings parseExample resolvePublic
      (fun _ => AttemptOutcome.timeoutErr) (fun _ => (1:ℚ)/2)
      "http://example.com/hook" (some sampleRecord)).2) =
      (List.range 3).map (fun k => backoffDelay defaultSettings (fun _ => (1:ℚ)/2) k) ∧
    (1/2 * min ((1:ℚ) * 2 ^ 1) 30 ≤ backoffDelay defaultSettings (fun _ => (1:ℚ)/2) 1 ∧
      backoffDelay defaultSettings (fun _ => (1:ℚ)/2) 1 <
        3/2 * min ((1:ℚ) * 2 ^ 1) 30) ∧
    (∃ pre tail, (_deliver_callback defaultSettings parseExample resolvePublic
      (fun _ => AttemptOutcome.timeoutErr) (fun _ => (1:ℚ)/2)
      "http://example.com/hook" (some sampleRecord)).2 =
      pre ++ Event.httpPost 3 :: tail ∧ sleepDelays tail = []) := by
  have h := c6_amended_backoff_after_attempt defaultSettings parseExample
    resolvePublic (fun _ => AttemptOutcome.timeoutErr) (fun _ => (1:ℚ)/2)
    "http://example.com/hook" (some sampleRecord) (by decide)
    (fun _k => by simp [attemptError]) (by norm_num [defaultSettings])
    (by norm_num [defaultSettings]) (fun _k => by norm_num)
  exact ⟨h.1, h.2.1 1, h.2.2⟩

/-- C7: offering a job to a bounded queue already holding at least its
capacity returns false with the queue unchanged; below capacity the job is
appended at the tail and true is returned, and the oldest item stays the one
dequeued next (FIFO preserved). -/
theorem c7_enqueue_backpressure (q : JobQueue) (rid : String)
    (p : AsyncWorkPayload) (hpos : 0 < q.maxsize) :
    (q.maxsize ≤ q.items.length → enqueue q rid p = (false, q)) ∧
    (q.items.length < q.maxsize →
      enqueue q rid p = (true, { q with items := q.items ++ [(rid, p)] }) ∧
      (∀ x xs, q.items = x :: xs →
        (queue_get (enqueue q rid p).2).map (fun y => y.1) = some x)) := by
  constructor
  · intro hfull
    have hf : q.full = true := by
      simp only [JobQueue.full, Bool.and_eq_true, decide_eq_true_eq]
      omega
    simp [enqueue, put_nowait, hf]
  · intro hlt
    have hnf : q.full = false := by
      simp only [JobQueue.full, Bool.and_eq_false_iff, decide_eq_false_iff_not]
      omega
    constructor
    · simp [enqueue, put_nowait, hnf]
    · intro x xs hx
      simp [enqueue, put_nowait, hnf, queue_get, hx]

/-- Witness for c7_enqueue_backpressure: a queue of capacity 1 holding one
item rejects a second job unchanged; a queue of capacity 2 holding one item
accepts it at the tail. -/
theorem c7_enqueue_backpressure_witness :
    enqueue ⟨1, [("a", samplePayload)]⟩ "b" samplePayload =
      (false, ⟨1, [("a", samplePayload)]⟩) ∧
    enqueue ⟨2, [("a", samplePayload)]⟩ "b" samplePayload =
      (true, ⟨2, [("a", samplePayload), ("b", samplePayload)]⟩) ∧
    (queue_get (enqueue ⟨2, [("a", samplePayload)]⟩ "b" samplePayload).2).map
      (fun y => y.1) = some ("a", samplePayload) := by
  refine ⟨?_, ?_, ?_⟩
  · exact (c7_enqueue_backpressure ⟨1, [("a", samplePayload)]⟩ "b" samplePayload
      (by decide)).1 (by decide)
  · exact ((c7_enqueue_backpressure ⟨2, [("a", samplePayload)]⟩ "b" samplePayload
      (by decide)).2 (by decide)).1
  · exact ((c7_enqueue_backpressure ⟨2, [("a", samplePayload)]⟩ "b" samplePayload
      (by decide)).2 (by decide)).2 ("a", samplePayload) [] rfl

/-- C8: one worker iteration never lets an exception escape: whatever the
dequeue and the processing produce, the iteration result is never a raised
exception; a processing exception ends in a logged continue of the loop; and
a work-executor exception leaves the job record saved as CALLBACK_FAILED
with the exception text in callback_last_error. -/
theorem c8_worker_isolation :
    (∀ (get : GetResult) (process : String → AsyncWorkPayload → PyResult Unit)
        (m : String), worker_iteration get process ≠ PyResult.exc m) ∧
    (∀ (rid : String) (p : AsyncWorkPayload)
        (process : String → AsyncWorkPayload → PyResult Unit) (m : String),
      process rid p = PyResult.exc m →
      worker_iteration (GetResult.item rid p) process =
        PyResult.ok WorkerStep.continueLoop) ∧
    (∀ (stg : Settings) (parse : String → Option ParsedUrl)
        (resolve : String → Option IPInfo) (outcomes : Nat → AttemptOutcome)
        (jitter : Nat → ℚ) (msg url : String) (now : Nat) (r : RequestRecord),
      (_process_request stg parse resolve outcomes jitter (WorkOutcome.exc msg)
        url now (some r)).1 =
        some { r with
          status := RequestStatus.callback_failed,
          callback_last_error := some msg }) := by
  refine ⟨?_, ?_, ?_⟩
  · intro get process m
    cases get with
    | timeoutErr => simp [worker_iteration]
    | cancelled => simp [worker_iteration]
    | item rid p =>
      simp only [worker_iteration]
      cases process rid p <;> simp
  · intro rid p process m hp
    simp [worker_iteration, hp]
  · intro stg parse resolve outcomes jitter msg url now r
    simp [_process_request]

/-- Witness for c8_worker_isolation: a processing that raises makes the
iteration continue the loop rather than raise, and the concrete record is
saved as CALLBACK_FAILED with the error text. -/
theorem c8_worker_isolation_witness :
    worker_iteration (GetResult.item "req-1" samplePayload)
      (fun _ _ => PyResult.exc "boom") ≠ PyResult.exc "boom" ∧
    worker_iteration (GetResult.item "req-1" samplePayload)
      (fun _ _ => PyResult.exc "boom") = PyResult.ok WorkerStep.continueLoop ∧
    (_process_request defaultSettings parseExample resolvePublic
      (fun _ => AttemptOutcome.response 200) (fun _ => (1:ℚ)/2)
      (WorkOutcome.exc "boom") "http://example.com/hook" 7 (some sampleRecord)).1 =
      some { sampleRecord with
        status := RequestStatus.callback_failed,
        callback_last_error := some "boom" } := by
  refine ⟨?_, ?_, ?_⟩
  · exact c8_worker_isolation.1 (GetResult.item "req-1" samplePayload)
      (fun _ _ => PyResult.exc "boom") "boom"
  · exact c8_worker_isolation.2.1 "req-1" samplePayload
      (fun _ _ => PyResult.exc "boom") "boom" rfl
  · exact c8_worker_isolation.2.2 defaultSettings parseExample resolvePublic
      (fun _ => AttemptOutcome.response 200) (fun _ => (1:ℚ)/2) "boom"
      "http://example.com/hook" 7 sampleRecord

/-- C9: the work computation is deterministic in the payload: two runs of
compute_work_sync with the same hash collaborator and payload but any two
request ids and any two measured times agree on input_hash, output_hash and
iterations (only request_id and processing_time_ms may differ), and
compute_work_async returns exactly what compute_work_sync returns. -/
theorem c9_compute_deterministic (sha256hex : String → String) (t1 t2 : ℚ)
    (id1 id2 : String) (p : WorkPayload) :
    (compute_work_sync sha256hex t1 id1 p).input_hash =
      (compute_work_sync sha256hex t2 id2 p).input_hash ∧
    (compute_work_sync sha256hex t1 id1 p).output_hash =
      (compute_work_sync sha256hex t2 id2 p).output_hash ∧
    (compute_work_sync sha256hex t1 id1 p).iterations =
      (compute_work_sync sha256hex t2 id2 p).iterations ∧
    compute_work_async sha256hex t1 id1 p = compute_work_sync sha256hex t1 id1 p :=
  ⟨rfl, rfl, rfl, rfl⟩

/-- C10: a dequeued job whose request id has no stored record is still fully
processed: the run stores nothing (every status update and increment is
silently skipped, and the model raises nothing), the store stays empty, and
with a safe URL and all attempts failing the delivery loop still runs to
completion with its full max_retries + 1 POSTs. -/
theorem c10_missing_record_processing (stg : Settings)
    (parse : String → Option ParsedUrl) (resolve : String → Option IPInfo)
    (outcomes : Nat → AttemptOutcome) (jitter : Nat → ℚ) (work : WorkOutcome)
    (url : String) (now : Nat) :
    (_process_request stg parse resolve outcomes jitter work url now none).1 =
      none ∧
    savedStatuses (_process_request stg parse resolve outcomes jitter work
      url now none).2 = [] ∧
    (∀ result, work = WorkOutcome.ok result →
      _is_safe_callback_url stg parse resolve url = true →
      (∀ k, attemptError (outcomes k) ≠ none) →
      countPosts (_process_request stg parse resolve outcomes jitter work
        url now none).2 = stg.callback_max_retries + 1) := by
  refine ⟨?_, ?_, ?_⟩
  · cases work with
    | ok result =>
      simp only [_process_request, _deliver_callback]
      by_cases hsafe : _is_safe_callback_url stg parse resolve url = true
      · simp [hsafe, (deliverLoop_db_none stg outcomes jitter
          (stg.callback_max_retries + 1) 0 none).1]
      · rw [Bool.not_eq_true] at hsafe
        simp [hsafe, _update_callback_status]
    | exc msg =>
      simp [_process_request]
  · cases work with
    | ok result =>
      simp only [_process_request, _deliver_callback]
      by_cases hsafe : _is_safe_callback_url stg parse resolve url = true
      · simp [hsafe, (deliverLoop_db_none stg outcomes jitter
          (stg.callback_max_retries + 1) 0 none).2]
      · rw [Bool.not_eq_true] at hsafe
        simp [hsafe, _update_callback_status]
    | exc msg =>
      simp [_process_request]
  · intro result hw hsafe hfail
    subst hw
    simp only [_process_request, _deliver_callback]
    simp [hsafe, deliverLoop_allFail_countPosts stg outcomes jitter hfail]

/-- Witness for c10_missing_record_processing: with no stored record, a work
success and all attempts answered 500, the run stores nothing yet makes all
4 POSTs. -/
theorem c10_missing_record_processing_witness :
    (_process_request defaultSettings parseExample resolvePublic
      (fun _ => AttemptOutcome.response 500) (fun _ => (1:ℚ)/2)
      (WorkOutcome.ok sampleResult) "http://example.com/hook" 7 none).1 = none ∧
    savedStatuses (_process_request defaultSettings parseExample resolvePublic
      (fun _ => AttemptOutcome.response 500) (fun _ => (1:ℚ)/2)
      (WorkOutcome.ok sampleResult) "http://example.com/hook" 7 none).2 = [] ∧
    countPosts (_process_request defaultSettings parseExample resolvePublic
      (fun _ => AttemptOutcome.response 500) (fun _ => (1:ℚ)/2)
      (WorkOutcome.ok sampleResult) "http://example.com/hook" 7 none).2 = 4 := by
  have h := c10_missing_record_processing defaultSettings parseExample
    resolvePublic (fun _ => AttemptOutcome.response 500) (fun _ => (1:ℚ)/2)
    (WorkOutcome.ok sampleResult) "http://example.com/hook" 7
  refine ⟨h.1, h.2.1, ?_⟩
  have h3 := h.2.2 sampleResult rfl (by decide) (fun _k => by simp [attemptError])
  rw [h3]
  decide

end Consuma
